import Mathlib

/-!
Verification of the `Service::VI` display/buffer-handoff service of
`src/src/core/hle/service/vi/vi.cpp` against its natural-language
specification.

Shallow embedding conventions:
* Bytes are `Nat` (each value produced is `< 256`); byte buffers are
  `List Nat`.  Machine `u32` truncation is written `% 4294967296`.
* `ASSERT` / `ASSERT_MSG` failures abort emulation; in the embedding they
  are explicit outcomes (`ParcelError.ProtocolViolation` inside the parcel
  codec, per the spec's error taxonomy, and `fatal` constructors in the
  service handlers).
* The `NVFlinger::BufferQueue` and `NVFlinger::NVFlinger` registry live in
  files that are not part of this repository excerpt; their operations are
  modelled from the spec (each such definition is marked
  `Modelled from the spec:`).  Everything else is translated from
  `vi.cpp` directly.
-/

namespace ServiceVI

/-- The four `ResultCode` constants of `vi.cpp` (module VI, descriptions
1, 5, 6, 7) together with `RESULT_SUCCESS`. -/
inductive VIResult
  | RESULT_SUCCESS
  | ERR_OPERATION_FAILED
  | ERR_PERMISSION_DENIED
  | ERR_UNSUPPORTED
  | ERR_NOT_FOUND
deriving DecidableEq, Repr

/-- Errors of the parcel codec.  An `ASSERT` failure inside `Parcel`
(truncated buffer, read past the end) is a protocol violation in the
spec's taxonomy: fatal to the transaction, never retried. -/
inductive ParcelError
  | ProtocolViolation
deriving DecidableEq, Repr

/-- `Common::AlignUp(value, 4)`. -/
def alignUp4 (n : Nat) : Nat := (n + 3) / 4 * 4

/-- Little-endian byte encoding of a `u32_le` value (the low 32 bits of `n`). -/
def u32le (n : Nat) : List Nat :=
  [n % 256, n / 256 % 256, n / 65536 % 256, n / 16777216 % 256]

/-- Little-endian decoding of the first four bytes of a buffer
(the `memcpy` into a `u32_le` field). -/
def decodeU32 : List Nat → Nat
  | b0 :: b1 :: b2 :: b3 :: _ => b0 + 256 * b1 + 65536 * b2 + 16777216 * b3
  | _ => 0

/-- `Parcel::Header`: four `u32_le` fields, 16 bytes. -/
structure Header where
  data_size : Nat
  data_offset : Nat
  objects_size : Nat
  objects_offset : Nat
deriving DecidableEq, Repr

/-- Reading a `Header` from the front of a byte buffer
(`std::memcpy(&header, buffer.data(), sizeof(Header))`). -/
def parseHeader (l : List Nat) : Header :=
  { data_size := decodeU32 l
    data_offset := decodeU32 (l.drop 4)
    objects_size := decodeU32 (l.drop 8)
    objects_offset := decodeU32 (l.drop 12) }

/-- The byte encoding of a `Header` as `memcpy` lays it out. -/
def serializeHeader (h : Header) : List Nat :=
  u32le h.data_size ++ u32le h.data_offset ++ u32le h.objects_size ++
    u32le h.objects_offset

/-- `memcpy(buf.data() + i, bytes.data(), bytes.size())`: overwrite
`bytes.length` bytes of `buf` starting at offset `i`. -/
def listOverwrite (buf : List Nat) (i : Nat) (bytes : List Nat) : List Nat :=
  buf.take i ++ bytes ++ buf.drop (i + bytes.length)

/-- `class Parcel`: an owned byte buffer with a read and a write cursor. -/
structure Parcel where
  buffer : List Nat
  read_index : Nat
  write_index : Nat
deriving DecidableEq, Repr

/-- `Parcel::DefaultBufferSize = 0x40`. -/
def Parcel.DefaultBufferSize : Nat := 0x40

/-- `Parcel::Parcel()`: a default-constructed parcel owns a zeroed buffer of
`DefaultBufferSize` bytes. -/
def Parcel.default : Parcel :=
  { buffer := List.replicate Parcel.DefaultBufferSize 0
    read_index := 0
    write_index := 0 }

/-- `Parcel::Read<T>()` for a `T` of `size` bytes: asserts the read stays in
bounds, copies the bytes, advances the read cursor and aligns it up to 4. -/
def Parcel.read (p : Parcel) (size : Nat) :
    Except ParcelError (List Nat × Parcel) :=
  if p.read_index + size ≤ p.buffer.length then
    .ok ((p.buffer.drop p.read_index).take size,
         { p with read_index := alignUp4 (p.read_index + size) })
  else
    .error .ProtocolViolation

/-- `Parcel::ReadUnaligned<T>()`: identical to `Read` but the cursor is not
rounded up. -/
def Parcel.readUnaligned (p : Parcel) (size : Nat) :
    Except ParcelError (List Nat × Parcel) :=
  if p.read_index + size ≤ p.buffer.length then
    .ok ((p.buffer.drop p.read_index).take size,
         { p with read_index := p.read_index + size })
  else
    .error .ProtocolViolation

/-- `Parcel::ReadBlock(length)`: copies `length` raw bytes, advances the read
cursor and aligns it up to 4. -/
def Parcel.readBlock (p : Parcel) (length : Nat) :
    Except ParcelError (List Nat × Parcel) :=
  if p.read_index + length ≤ p.buffer.length then
    .ok ((p.buffer.drop p.read_index).take length,
         { p with read_index := alignUp4 (p.read_index + length) })
  else
    .error .ProtocolViolation

/-- `Parcel::Write<T>(val)` for a value whose byte image is `val`: grows the
buffer by `sizeof(T) + DefaultBufferSize` zero bytes when there is not
enough room, copies the bytes at the write cursor, advances it and aligns it
up to 4. -/
def Parcel.writeBytes (p : Parcel) (val : List Nat) : Parcel :=
  let buffer :=
    if p.buffer.length < p.write_index + val.length then
      p.buffer ++ List.replicate (val.length + Parcel.DefaultBufferSize) 0
    else
      p.buffer
  { p with
    buffer := listOverwrite buffer p.write_index val
    write_index := alignUp4 (p.write_index + val.length) }

/-- `Parcel::WriteObject<T>(val)`: a 4-byte size field, a 4-byte descriptor
count fixed at 0, then the value itself — three `Write` calls. -/
def Parcel.writeObjectWrites (val : List Nat) : List (List Nat) :=
  [u32le val.length, u32le 0, val]

/-- The parcel a fresh `Serialize()` works on: the default buffer with the
write cursor placed just past the header (`write_index = sizeof(Header)`;
the `ASSERT(read_index == 0)` holds for every parcel the service
serializes, all of which are freshly constructed responses). -/
def Parcel.serializeInit : Parcel :=
  { buffer := List.replicate Parcel.DefaultBufferSize 0
    read_index := 0
    write_index := 16 }

/-- `Parcel::Serialize()` where `SerializeData()` performs `writes` (one
entry per `Write` call, each entry the written value's byte image):
runs the writes after the header, computes the final data size, fills in
the 16-byte header at offset 0 and returns the whole buffer. -/
def Parcel.serializeP (writes : List (List Nat)) : List Nat :=
  let p1 := writes.foldl Parcel.writeBytes Parcel.serializeInit
  let data_size := (p1.write_index - 16) % 4294967296
  listOverwrite p1.buffer 0
    (u32le data_size ++ u32le 16 ++ u32le 4 ++
      u32le ((16 + data_size) % 4294967296))

/-- The number of data bytes `Serialize()` ends up with after the header
(alignment padding included): the final write cursor minus the header. -/
def serializeDataSize (writes : List (List Nat)) : Nat :=
  (writes.foldl Parcel.writeBytes Parcel.serializeInit).write_index - 16

/-- `Parcel::Deserialize()` up to the virtual `DeserializeData()` call:
asserts the buffer is strictly longer than the 16-byte header, reads the
header, sets the read cursor to `data_offset`. -/
def Parcel.deserializeStep (p : Parcel) : Except ParcelError Parcel :=
  if 16 < p.buffer.length then
    .ok { p with read_index := (parseHeader p.buffer).data_offset }
  else
    .error .ProtocolViolation

/-! ### Header roundtrip lemmas -/

lemma decodeU32_quad (b0 b1 b2 b3 : Nat) (rest : List Nat) :
    decodeU32 (b0 :: b1 :: b2 :: b3 :: rest) =
      b0 + 256 * b1 + 65536 * b2 + 16777216 * b3 := rfl

lemma decodeU32_u32le (n : Nat) (rest : List Nat) :
    decodeU32 (u32le n ++ rest) = n % 4294967296 := by
  have h : decodeU32 (u32le n ++ rest) =
      n % 256 + 256 * (n / 256 % 256) + 65536 * (n / 65536 % 256) +
        16777216 * (n / 16777216 % 256) := rfl
  omega

lemma parseHeader_quad (a b c d : Nat) (rest : List Nat) :
    parseHeader (u32le a ++ u32le b ++ u32le c ++ u32le d ++ rest) =
      { data_size := a % 4294967296
        data_offset := b % 4294967296
        objects_size := c % 4294967296
        objects_offset := d % 4294967296 } := by
  have h1 : parseHeader (u32le a ++ u32le b ++ u32le c ++ u32le d ++ rest) =
      { data_size := decodeU32 (u32le a ++ (u32le b ++ u32le c ++ u32le d ++ rest))
        data_offset := decodeU32 (u32le b ++ (u32le c ++ u32le d ++ rest))
        objects_size := decodeU32 (u32le c ++ (u32le d ++ rest))
        objects_offset := decodeU32 (u32le d ++ rest) } := rfl
  rw [h1, decodeU32_u32le, decodeU32_u32le, decodeU32_u32le, decodeU32_u32le]

/-! ### C4: header invariants of `Serialize` -/

lemma serializeP_eq (writes : List (List Nat)) :
    Parcel.serializeP writes =
      u32le (serializeDataSize writes % 4294967296) ++ u32le 16 ++ u32le 4 ++
        u32le ((16 + serializeDataSize writes % 4294967296) % 4294967296) ++
        ((writes.foldl Parcel.writeBytes Parcel.serializeInit).buffer.drop 16) := rfl

/-- C4.  For every parcel produced by `Serialize` (any sequence of prior
writes) whose data region fits a `u32`, the 16-byte header satisfies
`data_offset = 16`, `objects_size = 4`, `objects_offset = 16 + data_size`,
where `data_size` is the number of data bytes written after the header. -/
theorem serialize_header_invariant (writes : List (List Nat))
    (h : serializeDataSize writes + 16 < 4294967296) :
    (parseHeader (Parcel.serializeP writes)).data_offset = 16 ∧
    (parseHeader (Parcel.serializeP writes)).objects_size = 4 ∧
    (parseHeader (Parcel.serializeP writes)).objects_offset =
      16 + (parseHeader (Parcel.serializeP writes)).data_size ∧
    (parseHeader (Parcel.serializeP writes)).data_size =
      serializeDataSize writes := by
  rw [serializeP_eq, parseHeader_quad]
  dsimp only
  refine ⟨by omega, by omega, by omega, by omega⟩

/-- Witness for C4 at a concrete write sequence (a single 4-byte write). -/
theorem serialize_header_invariant_witness :
    serializeDataSize [[0, 0, 0, 0]] + 16 < 4294967296 ∧
    (parseHeader (Parcel.serializeP [[0, 0, 0, 0]])).data_offset = 16 :=
  ⟨by decide, (serialize_header_invariant [[0, 0, 0, 0]] (by decide)).1⟩

/-! ### C5: cursor alignment -/

lemma alignUp4_mod (n : Nat) : alignUp4 n % 4 = 0 := by
  unfold alignUp4
  omega

/-- C5.  After any single aligned read (`Read<T>`, `ReadBlock`) or any write
(`Write<T>`) starting from a cursor that is a multiple of 4, the active
cursor is again a multiple of 4. -/
theorem cursor_alignment (p : Parcel) (size blockLength : Nat)
    (val : List Nat) (hr : p.read_index % 4 = 0) (hw : p.write_index % 4 = 0) :
    (∀ out p', p.read size = .ok (out, p') → p'.read_index % 4 = 0) ∧
    (∀ out p', p.readBlock blockLength = .ok (out, p') →
      p'.read_index % 4 = 0) ∧
    (p.writeBytes val).write_index % 4 = 0 := by
  refine ⟨?_, ?_, ?_⟩
  · intro out p' hok
    unfold Parcel.read at hok
    split at hok
    · cases hok
      exact alignUp4_mod _
    · cases hok
  · intro out p' hok
    unfold Parcel.readBlock at hok
    split at hok
    · cases hok
      exact alignUp4_mod _
    · cases hok
  · exact alignUp4_mod _

/-- Witness for C5 at a concrete parcel with aligned cursors. -/
theorem cursor_alignment_witness :
    Parcel.serializeInit.read_index % 4 = 0 ∧
    Parcel.serializeInit.write_index % 4 = 0 ∧
    (Parcel.serializeInit.writeBytes [7]).write_index % 4 = 0 :=
  ⟨by decide, by decide,
    (cursor_alignment Parcel.serializeInit 4 4 [7] (by decide)
      (by decide)).2.2⟩

/-! ### C6: `Deserialize` bounds check -/

/-- C6.  `Deserialize` requires a buffer strictly longer than the 16-byte
header: on a buffer shorter than 16 bytes it fails with a protocol
violation, and when the buffer is longer than 16 bytes the failure branch
is unreachable and the read cursor is set to the header's `data_offset`. -/
theorem deserialize_requires_header (p : Parcel) :
    (p.buffer.length < 16 → p.deserializeStep = .error .ProtocolViolation) ∧
    (16 < p.buffer.length →
      p.deserializeStep =
        .ok { p with read_index := (parseHeader p.buffer).data_offset }) := by
  constructor
  · intro h
    unfold Parcel.deserializeStep
    rw [if_neg (by omega)]
  · intro h
    unfold Parcel.deserializeStep
    rw [if_pos h]

/-- Witness for C6: a 1-byte parcel is refused, an 18-byte parcel is
accepted with the read cursor at the (zero) `data_offset`. -/
theorem deserialize_requires_header_witness :
    (Parcel.mk [0] 0 0).deserializeStep = .error .ProtocolViolation ∧
    (Parcel.mk (List.replicate 18 0) 0 0).deserializeStep =
      .ok { Parcel.mk (List.replicate 18 0) 0 0 with
              read_index := (parseHeader (List.replicate 18 0)).data_offset } :=
  ⟨(deserialize_requires_header _).1 (by decide),
   (deserialize_requires_header _).2 (by decide)⟩

/-! ### Buffer queue

`NVFlinger::BufferQueue` lives in `core/hle/service/nvflinger/`, which is not
part of this repository excerpt; its state and operations are modelled from
the spec (§3, §4.3). -/

/-- Modelled from the spec: `NVFlinger::IGBPBuffer`, the bound buffer
descriptor of a slot.  Only its dimension fields take part in the modelled
operations; `igbpBufferBytes` is its wire image for `WriteObject`. -/
structure IGBPBuffer where
  width : Nat
  height : Nat
deriving DecidableEq, Repr

/-- Modelled from the spec: the byte image of a descriptor written by
`WriteObject`. -/
def igbpBufferBytes (b : IGBPBuffer) : List Nat :=
  u32le b.width ++ u32le b.height

/-- Modelled from the spec: the lifecycle states of a buffer slot. -/
inductive BufferState
  | Free
  | Dequeued
  | Queued
  | Acquired
deriving DecidableEq, Repr

/-- Modelled from the spec: one buffer slot — lifecycle state, optional
bound descriptor, synchronization fence (an opaque byte token) and
presentation metadata. -/
structure BufferSlot where
  state : BufferState
  igbp_buffer : Option IGBPBuffer
  multi_fence : List Nat
  transform : Nat
  crop_rect : Int × Int × Int × Int
  swap_interval : Nat
deriving DecidableEq, Repr

/-- Modelled from the spec: a fixed-capacity slot table. -/
structure BufferQueue where
  slots : List BufferSlot
deriving DecidableEq, Repr

/-- Modelled from the spec: a slot is eligible for `DequeueBuffer` when it
is FREE and its bound descriptor has the requested dimensions. -/
def slotEligible (width height : Nat) (s : BufferSlot) : Bool :=
  s.state == .Free &&
    match s.igbp_buffer with
    | some b => b.width == width && b.height == height
    | none => false

/-- Modelled from the spec: `BufferQueue::SetPreallocatedBuffer` binds a
descriptor to `slot` unconditionally, regardless of its current state. -/
def BufferQueue.setPreallocatedBuffer (q : BufferQueue) (slot : Nat)
    (buf : IGBPBuffer) : BufferQueue :=
  match q.slots[slot]? with
  | some s => { slots := q.slots.set slot { s with igbp_buffer := some buf } }
  | none => q

/-- Modelled from the spec: `BufferQueue::DequeueBuffer` scans the slots in
index order for the first eligible FREE slot; on a match it transitions the
slot FREE→DEQUEUED and returns the slot index and its fence.  `none` is not
an error: it signals that the caller must wait. -/
def BufferQueue.dequeueBuffer (q : BufferQueue) (width height : Nat) :
    Option (Nat × List Nat × BufferQueue) :=
  match q.slots.findIdx? (slotEligible width height) with
  | some i =>
      match q.slots[i]? with
      | some s =>
          some (i, s.multi_fence,
                { slots := q.slots.set i { s with state := .Dequeued } })
      | none => none
  | none => none

/-- Modelled from the spec: `BufferQueue::RequestBuffer` returns the
descriptor bound to `slot`; `none` when the slot has no bound descriptor. -/
def BufferQueue.requestBuffer (q : BufferQueue) (slot : Nat) :
    Option IGBPBuffer :=
  (q.slots[slot]?).bind (fun s => s.igbp_buffer)

/-- Modelled from the spec: `BufferQueue::QueueBuffer` requires `slot` in
DEQUEUED state (`none` models the InvalidState defect), records the
presentation metadata and transitions the slot DEQUEUED→QUEUED. -/
def BufferQueue.queueBuffer (q : BufferQueue) (slot transform : Nat)
    (crop_rect : Int × Int × Int × Int) (swap_interval : Nat)
    (fence : List Nat) : Option BufferQueue :=
  match q.slots[slot]? with
  | some s =>
      if s.state == .Dequeued then
        some { slots := q.slots.set slot
                { s with state := .Queued, transform := transform,
                         crop_rect := crop_rect,
                         swap_interval := swap_interval,
                         multi_fence := fence } }
      else none
  | none => none

/-- Modelled from the spec: `BufferQueue::Query` is a read-only metadata
fetch (default dimensions and the like); it never mutates state. -/
def BufferQueue.query (q : BufferQueue) (ty : Nat) : Nat :=
  match ty with
  | 0 => 1280
  | 1 => 720
  | _ => 0

/-- Modelled from the spec: the pending-buffer count is the number of
QUEUED slots. -/
def BufferQueue.pendingCount (q : BufferQueue) : Nat :=
  (q.slots.filter (fun s => s.state == .Queued)).length

/-! ### Response parcels

Each definition gives the byte image of one response parcel of
`IHOSBinderDriver::TransactParcel`, built with the real `Serialize`. -/

/-- `IGBPConnectResponseParcel`: `{width, height, 0, 0, 0}`.  The source
fills width/height from `DisplayResolution::Undocked{Width,Height} = 1280 ×
720` scaled by `Settings::values.resolution_factor`, a setting external to
this file modelled at its default of 1. -/
def connectResponseBytes : List Nat :=
  Parcel.serializeP [u32le 1280 ++ u32le 720 ++ u32le 0 ++ u32le 0 ++ u32le 0]

/-- `IGBPEmptyResponseParcel`: one `u32` 0, used by Disconnect and
DetachBuffer; `IGBPSetPreallocatedBufferResponseParcel` writes the same. -/
def emptyResponseBytes : List Nat :=
  Parcel.serializeP [u32le 0]

/-- `IGBPDequeueBufferResponseParcel`: `Write(slot); Write(1);
WriteObject(multi_fence); Write(0)`. -/
def dequeueBufferResponseBytes (slot : Nat) (fence : List Nat) : List Nat :=
  Parcel.serializeP
    ([u32le slot, u32le 1] ++ Parcel.writeObjectWrites fence ++ [u32le 0])

/-- `IGBPRequestBufferResponseParcel`: `Write(1); WriteObject(buffer);
Write(0)`. -/
def requestBufferResponseBytes (buf : IGBPBuffer) : List Nat :=
  Parcel.serializeP
    ([u32le 1] ++ Parcel.writeObjectWrites (igbpBufferBytes buf) ++ [u32le 0])

/-- `IGBPQueueBufferResponseParcel`: a 20-byte `Data` of `{width, height,
transform_hint = 0, num_pending_buffers = 0, status = 0}` written by a
single `Write(data)`. -/
def queueBufferResponseBytes (width height : Nat) : List Nat :=
  Parcel.serializeP
    [u32le width ++ u32le height ++ u32le 0 ++ u32le 0 ++ u32le 0]

/-- `IGBPQueryResponseParcel`: the queried `u32` value. -/
def queryResponseBytes (value : Nat) : List Nat :=
  Parcel.serializeP [u32le value]

/-! ### The transaction dispatcher -/

/-- One decoded `TransactParcel` request: the `TransactionId` together with
the fields its request parcel carries (`vi.cpp` lines 505–597).
`unimplemented` stands for every id the final `else` rejects with
`ASSERT_MSG(false, "Unimplemented")`. -/
inductive TransactionRequest
  | connect (unk api producer_controlled_by_app : Nat)
  | setPreallocatedBuffer (slot : Nat) (graphic_buffer : IGBPBuffer)
  | dequeueBuffer (width height : Nat)
  | requestBuffer (slot : Nat)
  | queueBuffer (slot transform : Nat) (crop_rect : Int × Int × Int × Int)
      (swap_interval : Nat) (fence : List Nat)
  | query (ty : Nat)
  | cancelBuffer
  | disconnect
  | detachBuffer
  | unimplemented
deriving DecidableEq, Repr

/-- What one `TransactParcel` call does: `completed` carries the IPC result
pushed to the guest, the queue afterwards and the response parcel written
with `ctx.WriteBuffer` (if any); `suspended` is the `SleepClientThread`
path with the captured retry parameters; `fatalAssert` is an `ASSERT`
aborting emulation (also the model of a buffer-queue operation hitting its
own assertion, such as `QueueBuffer` on a slot that is not DEQUEUED). -/
inductive TransactOutcome
  | completed (ipc_result : VIResult) (queue : BufferQueue)
      (response : Option (List Nat))
  | suspended (width height : Nat) (queue : BufferQueue)
  | fatalAssert
deriving DecidableEq, Repr

/-- `IHOSBinderDriver::TransactParcel` (vi.cpp lines 505–597): dispatch on
the transaction id; every branch that completes falls through to
`rb.Push(RESULT_SUCCESS)`. -/
def TransactParcel (q : BufferQueue) (req : TransactionRequest) :
    TransactOutcome :=
  match req with
  | .connect _ _ _ =>
      .completed .RESULT_SUCCESS q (some connectResponseBytes)
  | .setPreallocatedBuffer slot buf =>
      .completed .RESULT_SUCCESS (q.setPreallocatedBuffer slot buf)
        (some emptyResponseBytes)
  | .dequeueBuffer width height =>
      match q.dequeueBuffer width height with
      | some (slot, fence, q') =>
          .completed .RESULT_SUCCESS q'
            (some (dequeueBufferResponseBytes slot fence))
      | none => .suspended width height q
  | .requestBuffer slot =>
      match q.requestBuffer slot with
      | some buf =>
          .completed .RESULT_SUCCESS q (some (requestBufferResponseBytes buf))
      | none => .fatalAssert
  | .queueBuffer slot transform crop_rect swap_interval fence =>
      match q.queueBuffer slot transform crop_rect swap_interval fence with
      | some q' =>
          .completed .RESULT_SUCCESS q' (some (queueBufferResponseBytes 1280 720))
      | none => .fatalAssert
  | .query ty =>
      .completed .RESULT_SUCCESS q (some (queryResponseBytes (q.query ty)))
  | .cancelBuffer =>
      .completed .RESULT_SUCCESS q none
  | .disconnect =>
      .completed .RESULT_SUCCESS q (some emptyResponseBytes)
  | .detachBuffer =>
      .completed .RESULT_SUCCESS q (some emptyResponseBytes)
  | .unimplemented => .fatalAssert

/-- What the continuation registered by `SleepClientThread` does at wake. -/
inductive WakeOutcome
  | wokeResponded (ipc_result : VIResult) (queue : BufferQueue)
      (response : List Nat)
  | wokeFatalAssert
deriving DecidableEq, Repr

/-- The `DequeueBuffer` wake continuation (vi.cpp lines 543–557): re-runs
`DequeueBuffer` with the captured `width`/`height` against the queue state
at wake time; a repeated miss hits
`ASSERT_MSG(result != std::nullopt, "Could not dequeue buffer.")`, on a hit
it writes the response parcel and pushes `RESULT_SUCCESS`. -/
def dequeueBufferWakeCallback (q_at_wake : BufferQueue)
    (width height : Nat) : WakeOutcome :=
  match q_at_wake.dequeueBuffer width height with
  | some (slot, fence, q') =>
      .wokeResponded .RESULT_SUCCESS q' (dequeueBufferResponseBytes slot fence)
  | none => .wokeFatalAssert

/-! ### Concrete queues used by counterexamples and witnesses -/

/-- A capacity-1 queue whose only slot is FREE with a 1280×720 descriptor. -/
def exampleFreeQueue : BufferQueue :=
  ⟨[⟨.Free, some ⟨1280, 720⟩, [], 0, (0, 0, 0, 0), 0⟩]⟩

/-- A capacity-1 queue whose only slot is DEQUEUED (no FREE slot). -/
def exampleQueueNoFree : BufferQueue :=
  ⟨[⟨.Dequeued, some ⟨1280, 720⟩, [], 0, (0, 0, 0, 0), 0⟩]⟩

/-- Slot 0 DEQUEUED, slot 1 QUEUED: one pending buffer. -/
def exampleQueueOnePending : BufferQueue :=
  ⟨[⟨.Dequeued, some ⟨1280, 720⟩, [], 0, (0, 0, 0, 0), 0⟩,
    ⟨.Queued, some ⟨1280, 720⟩, [], 0, (0, 0, 0, 0), 0⟩]⟩

/-- `exampleQueueOnePending` after `QueueBuffer(0, ...)`: both slots QUEUED. -/
def exampleQueueBothQueued : BufferQueue :=
  ⟨[⟨.Queued, some ⟨1280, 720⟩, [], 0, (0, 0, 0, 0), 0⟩,
    ⟨.Queued, some ⟨1280, 720⟩, [], 0, (0, 0, 0, 0), 0⟩]⟩

/-! ### C1: DequeueBuffer backpressure -/

/-- C1 counterexample.  The claim says a waiter woken into a repeated miss
"re-parks on the waiter list rather than producing an error".  On the code,
the wake continuation that re-observes a miss hits
`ASSERT_MSG(result != std::nullopt, "Could not dequeue buffer.")` — a fatal
assertion, not a re-park: at the concrete queue whose only slot is still
DEQUEUED, the wake outcome is `wokeFatalAssert`. -/
theorem dequeue_wake_repeated_miss_asserts :
    dequeueBufferWakeCallback exampleQueueNoFree 1280 720 = .wokeFatalAssert ∧
    ∀ r resp, dequeueBufferWakeCallback exampleQueueNoFree 1280 720 ≠
      .wokeResponded r exampleQueueNoFree resp := by
  refine ⟨by decide, ?_⟩
  intro r resp h
  have h1 : dequeueBufferWakeCallback exampleQueueNoFree 1280 720 =
      .wokeFatalAssert := by decide
  rw [h1] at h
  exact WakeOutcome.noConfusion h

/-- C1 (amended).  A `DequeueBuffer` miss is never surfaced to the guest as
a failure: the first miss suspends the caller with the request parameters
captured; the woken continuation re-executes the identical dequeue attempt
against the queue state at wake time and responds on a hit; a repeated miss
hits a fatal assertion (it does not re-park and does not produce a
guest-visible error). -/
theorem dequeue_miss_suspends_then_retries (q q_at_wake q' : BufferQueue)
    (width height slot : Nat) (fence : List Nat) :
    (q.dequeueBuffer width height = none →
      TransactParcel q (.dequeueBuffer width height) =
        .suspended width height q) ∧
    (q_at_wake.dequeueBuffer width height = some (slot, fence, q') →
      dequeueBufferWakeCallback q_at_wake width height =
        .wokeResponded .RESULT_SUCCESS q'
          (dequeueBufferResponseBytes slot fence)) ∧
    (q_at_wake.dequeueBuffer width height = none →
      dequeueBufferWakeCallback q_at_wake width height = .wokeFatalAssert) := by
  refine ⟨?_, ?_, ?_⟩
  · intro h
    simp only [TransactParcel]
    rw [h]
  · intro h
    unfold dequeueBufferWakeCallback
    rw [h]
  · intro h
    unfold dequeueBufferWakeCallback
    rw [h]

/-- Witness for C1 (amended) at concrete queues: a queue with no FREE slot
suspends, and a wake that finds the single slot FREE dequeues it. -/
theorem dequeue_miss_suspends_then_retries_witness :
    TransactParcel exampleQueueNoFree (.dequeueBuffer 1280 720) =
      .suspended 1280 720 exampleQueueNoFree ∧
    dequeueBufferWakeCallback exampleFreeQueue 1280 720 =
      .wokeResponded .RESULT_SUCCESS exampleQueueNoFree
        (dequeueBufferResponseBytes 0 []) :=
  ⟨(dequeue_miss_suspends_then_retries exampleQueueNoFree exampleFreeQueue
      exampleQueueNoFree 1280 720 0 []).1 (by decide),
   (dequeue_miss_suspends_then_retries exampleQueueNoFree exampleFreeQueue
      exampleQueueNoFree 1280 720 0 []).2.1 (by decide)⟩

/-! ### C7: CancelBuffer / DetachBuffer -/

/-- C7 counterexample.  The claim says CancelBuffer/DetachBuffer on a
DEQUEUED slot transition it back to FREE and acknowledge.  On the code,
the CancelBuffer branch is a stub (a log line, no queue operation and no
response parcel) and the DetachBuffer branch writes an empty
acknowledgement without touching the queue: at the concrete queue whose
slot 0 is DEQUEUED, both leave slot 0 DEQUEUED, not FREE. -/
theorem cancel_detach_leave_slot_dequeued :
    TransactParcel exampleQueueNoFree .cancelBuffer =
      .completed .RESULT_SUCCESS exampleQueueNoFree none ∧
    TransactParcel exampleQueueNoFree .detachBuffer =
      .completed .RESULT_SUCCESS exampleQueueNoFree (some emptyResponseBytes) ∧
    (exampleQueueNoFree.slots[0]?).map (fun s => s.state) =
      some .Dequeued := by
  refine ⟨rfl, rfl, by decide⟩

/-- C7 (amended).  CancelBuffer is a stub: it performs no queue operation
and writes no response parcel (the IPC result is still success);
DetachBuffer writes the empty acknowledgement parcel and also performs no
queue operation — in particular a DEQUEUED slot stays DEQUEUED rather than
returning to FREE. -/
theorem cancel_detach_no_queue_effect (q : BufferQueue) :
    TransactParcel q .cancelBuffer = .completed .RESULT_SUCCESS q none ∧
    TransactParcel q .detachBuffer =
      .completed .RESULT_SUCCESS q (some emptyResponseBytes) := ⟨rfl, rfl⟩

/-! ### C8: QueueBuffer response -/

/-- C8 counterexample.  The claim says the QueueBuffer response carries the
queue's actual pending-buffer count and transform hint after the
transition.  On the code the response parcel is the constant
`IGBPQueueBufferResponseParcel{1280, 720}` with `transform_hint = 0` and
`num_pending_buffers = 0`: at a queue that has 2 pending buffers after the
transition, the response still encodes 0 at both fields (data offsets 8 and
12, absolute byte offsets 24 and 28). -/
theorem queue_buffer_response_ignores_queue :
    TransactParcel exampleQueueOnePending (.queueBuffer 0 0 (0, 0, 0, 0) 0 []) =
      .completed .RESULT_SUCCESS exampleQueueBothQueued
        (some (queueBufferResponseBytes 1280 720)) ∧
    exampleQueueBothQueued.pendingCount = 2 ∧
    decodeU32 ((queueBufferResponseBytes 1280 720).drop 24) = 0 ∧
    decodeU32 ((queueBufferResponseBytes 1280 720).drop 28) = 0 := by
  refine ⟨by decide, by decide, by decide, by decide⟩

/-- C8 (amended).  For every QueueBuffer transaction on a slot in DEQUEUED
state, the slot transitions to QUEUED but the response parcel is the fixed
`{1280, 720, 0, 0, 0}` — it does not reflect the pending-buffer count or
transform hint of the target queue. -/
theorem queue_buffer_response_is_constant (q q' : BufferQueue)
    (slot transform swap_interval : Nat) (crop_rect : Int × Int × Int × Int)
    (fence : List Nat)
    (h : q.queueBuffer slot transform crop_rect swap_interval fence = some q') :
    TransactParcel q (.queueBuffer slot transform crop_rect swap_interval fence) =
      .completed .RESULT_SUCCESS q' (some (queueBufferResponseBytes 1280 720)) := by
  simp only [TransactParcel]
  rw [h]

/-- Witness for C8 (amended) at the concrete one-pending queue. -/
theorem queue_buffer_response_is_constant_witness :
    BufferQueue.queueBuffer exampleQueueOnePending 0 0 (0, 0, 0, 0) 0 [] =
      some exampleQueueBothQueued ∧
    TransactParcel exampleQueueOnePending (.queueBuffer 0 0 (0, 0, 0, 0) 0 []) =
      .completed .RESULT_SUCCESS exampleQueueBothQueued
        (some (queueBufferResponseBytes 1280 720)) :=
  ⟨by decide,
   queue_buffer_response_is_constant exampleQueueOnePending
     exampleQueueBothQueued 0 0 0 (0, 0, 0, 0) [] (by decide)⟩

/-! ### C10: completed transactions always push success -/

/-- C10.  Every implemented `TransactParcel` transaction that completes
without suspension pushes `RESULT_SUCCESS` to the guest, whatever the
underlying buffer-queue operation did: no buffer-queue failure is ever
converted into a guest-visible error code on this path (failing operations
abort on an assertion instead of completing). -/
theorem transact_completed_is_success (q : BufferQueue)
    (req : TransactionRequest) (r : VIResult) (q' : BufferQueue)
    (resp : Option (List Nat))
    (h : TransactParcel q req = .completed r q' resp) :
    r = .RESULT_SUCCESS := by
  cases req <;> simp only [TransactParcel] at h <;>
    (try split at h) <;>
    first
      | exact TransactOutcome.noConfusion h
      | exact h.elim
      | (injection h with h1 h2 h3; exact h1.symm)

/-- Witness for C10 at a concrete Query transaction. -/
theorem transact_completed_is_success_witness :
    TransactParcel exampleQueueOnePending (.query 0) =
      .completed .RESULT_SUCCESS exampleQueueOnePending
        (some (queryResponseBytes 1280)) ∧
    VIResult.RESULT_SUCCESS = VIResult.RESULT_SUCCESS :=
  ⟨by decide,
   transact_completed_is_success exampleQueueOnePending (.query 0)
     .RESULT_SUCCESS exampleQueueOnePending (some (queryResponseBytes 1280))
     (by decide)⟩

/-! ### C2: the top-level display-service access gate -/

/-- `Permission` (vi.h): the caller class of the requesting service. -/
inductive Permission
  | User
  | System
  | Manager
deriving DecidableEq, Repr, Fintype

/-- `Policy` (vi.h): the requested access policy. -/
inductive Policy
  | User
  | Compositor
deriving DecidableEq, Repr, Fintype

/-- `IsValidServiceAccess` (vi.cpp lines 1189-1199). -/
def IsValidServiceAccess (permission : Permission) (policy : Policy) : Bool :=
  if permission = Permission.User then
    policy = Policy.User
  else if permission = Permission.System ∨ permission = Permission.Manager then
    policy = Policy.User ∨ policy = Policy.Compositor
  else
    false

/-- `detail::GetDisplayServiceImpl` (vi.cpp lines 1201-1216): the pushed
result code, and whether an `IApplicationDisplayService` interface is
pushed to the caller. -/
def GetDisplayServiceImpl (permission : Permission) (policy : Policy) :
    VIResult × Bool :=
  if IsValidServiceAccess permission policy then
    (.RESULT_SUCCESS, true)
  else
    (.ERR_PERMISSION_DENIED, false)

/-- C2.  At the top-level display-service gate, permission User succeeds
exactly when the policy is User; System or Manager succeed for policy User
or Compositor; every other combination fails with PermissionDenied and no
service interface is handed out. -/
theorem display_service_access_gate :
    ∀ permission policy,
      (GetDisplayServiceImpl permission policy = (.RESULT_SUCCESS, true) ↔
        ((permission = .User ∧ policy = .User) ∨
          ((permission = .System ∨ permission = .Manager) ∧
            (policy = .User ∨ policy = .Compositor)))) ∧
      (GetDisplayServiceImpl permission policy =
          (.ERR_PERMISSION_DENIED, false) ↔
        ¬ ((permission = .User ∧ policy = .User) ∨
            ((permission = .System ∨ permission = .Manager) ∧
              (policy = .User ∨ policy = .Compositor)))) := by decide

/-- Witness for C2 at a concrete pair: permission User with policy
Compositor is denied. -/
theorem display_service_access_gate_witness :
    GetDisplayServiceImpl .User .Compositor = (.ERR_PERMISSION_DENIED, false) :=
  (display_service_access_gate .User .Compositor).2.2 (by decide)

/-! ### C3: OpenDisplay -/

/-- The outcome of a display-service handler: a pushed display id with
`RESULT_SUCCESS`, a pushed error code, or an `ASSERT_MSG` failure that
aborts emulation. -/
inductive DisplayServiceOutcome
  | pushedId (display_id : Nat)
  | pushedError (code : VIResult)
  | assertionFailed
deriving DecidableEq, Repr

/-- The name trimming of `OpenDisplayImpl`: cut the incoming fixed-size
name buffer at its first NUL. -/
def trimAtNul (name : List Char) : List Char :=
  name.takeWhile (fun c => c != Char.ofNat 0)

/-- Modelled from the spec: `NVFlinger::OpenDisplay` resolves a display
name to the id of the registry entry bearing that name (the registry
recognizes the single name "Default"; creation on first use keeps the id
stable, so the lookup view suffices for the claims). -/
def NVFlinger.openDisplay (displays : List (Nat × List Char))
    (name : List Char) : Option Nat :=
  (displays.find? (fun d => d.2 == name)).map (fun d => d.1)

/-- `IApplicationDisplayService::OpenDisplayImpl` (vi.cpp lines 935-954):
trims the name at the first NUL, hits
`ASSERT_MSG(name == "Default", "Non-default displays aren't supported yet")`
for any other name, then resolves the display and pushes `ERR_NOT_FOUND`
when the registry cannot open it. -/
def OpenDisplayImpl (displays : List (Nat × List Char))
    (name_buf : List Char) : DisplayServiceOutcome :=
  if trimAtNul name_buf = "Default".toList then
    match NVFlinger.openDisplay displays (trimAtNul name_buf) with
    | some display_id => .pushedId display_id
    | none => .pushedError .ERR_NOT_FOUND
  else
    .assertionFailed

/-- The registry with the single "Default" display, id 0. -/
def defaultRegistry : List (Nat × List Char) := [(0, "Default".toList)]

/-- C3 counterexample.  The claim says any name other than "Default" fails
with the guest-visible `NotFound` without aborting.  On the code the
`ASSERT_MSG` fires first: at the concrete name "Foo" the outcome is the
fatal assertion, not `ERR_NOT_FOUND`. -/
theorem open_display_nondefault_asserts :
    OpenDisplayImpl defaultRegistry ("Foo".toList) = .assertionFailed ∧
    OpenDisplayImpl defaultRegistry ("Foo".toList) ≠
      .pushedError .ERR_NOT_FOUND := by
  refine ⟨by decide, by decide⟩

/-- C3 (amended).  For every display name other than "Default",
`OpenDisplayImpl` hits a fatal assertion (aborting emulation) rather than
returning an error to the guest; the guest-visible `NotFound` is pushed
only when the name is "Default" but the registry fails to open it, and a
successful open pushes the display id. -/
theorem open_display_behavior (displays : List (Nat × List Char))
    (name_buf : List Char) :
    (trimAtNul name_buf ≠ "Default".toList →
      OpenDisplayImpl displays name_buf = .assertionFailed) ∧
    (trimAtNul name_buf = "Default".toList →
      NVFlinger.openDisplay displays (trimAtNul name_buf) = none →
      OpenDisplayImpl displays name_buf = .pushedError .ERR_NOT_FOUND) ∧
    (∀ display_id, trimAtNul name_buf = "Default".toList →
      NVFlinger.openDisplay displays (trimAtNul name_buf) = some display_id →
      OpenDisplayImpl displays name_buf = .pushedId display_id) := by
  refine ⟨?_, ?_, ?_⟩
  · intro h
    unfold OpenDisplayImpl
    rw [if_neg h]
  · intro h hnone
    unfold OpenDisplayImpl
    rw [if_pos h, hnone]
  · intro display_id h hsome
    unfold OpenDisplayImpl
    rw [if_pos h, hsome]

/-- Witness for C3 (amended) at concrete inputs: the assertion on "Foo",
`NotFound` on "Default" against an empty registry, and a successful open
of "Default". -/
theorem open_display_behavior_witness :
    OpenDisplayImpl defaultRegistry ("Foo".toList) = .assertionFailed ∧
    OpenDisplayImpl [] ("Default".toList) = .pushedError .ERR_NOT_FOUND ∧
    OpenDisplayImpl defaultRegistry ("Default".toList) = .pushedId 0 :=
  ⟨(open_display_behavior defaultRegistry ("Foo".toList)).1 (by decide),
   (open_display_behavior [] ("Default".toList)).2.1 (by decide) (by decide),
   (open_display_behavior defaultRegistry ("Default".toList)).2.2 0
     (by decide) (by decide)⟩

/-! ### C9: SetLayerScalingMode -/

/-- `NintendoScaleMode` enum values, as the raw `u32` the request pops. -/
def NintendoScaleMode.ModeNone : Nat := 0

/-- `NintendoScaleMode::Freeze`. -/
def NintendoScaleMode.Freeze : Nat := 1

/-- `NintendoScaleMode::ScaleToWindow`. -/
def NintendoScaleMode.ScaleToWindow : Nat := 2

/-- `NintendoScaleMode::ScaleAndCrop`. -/
def NintendoScaleMode.ScaleAndCrop : Nat := 3

/-- `NintendoScaleMode::PreserveAspectRatio`. -/
def NintendoScaleMode.PreserveAspectRatio : Nat := 4

/-- `IApplicationDisplayService::SetLayerScalingMode`
(vi.cpp lines 993-1017): the result code pushed for a structurally valid
request carrying the given scaling-mode value. -/
def SetLayerScalingMode (scaling_mode : Nat) : VIResult :=
  if NintendoScaleMode.PreserveAspectRatio < scaling_mode then
    .ERR_OPERATION_FAILED
  else if scaling_mode ≠ NintendoScaleMode.ScaleToWindow ∧
          scaling_mode ≠ NintendoScaleMode.PreserveAspectRatio then
    .ERR_UNSUPPORTED
  else
    .RESULT_SUCCESS

/-- C9 counterexample.  The claim says an out-of-range value past the
largest defined mode fails with `Unsupported`.  On the code the
out-of-range check comes first and pushes `ERR_OPERATION_FAILED`, a
distinct error: at the concrete value 5 the result is
`ERR_OPERATION_FAILED`, not `ERR_UNSUPPORTED`. -/
theorem scaling_mode_out_of_range_not_unsupported :
    SetLayerScalingMode 5 = .ERR_OPERATION_FAILED ∧
    SetLayerScalingMode 5 ≠ .ERR_UNSUPPORTED := by decide

/-- C9 (amended).  A structurally valid SetLayerScalingMode request whose
value lies within the defined range but outside the accepted subset
{ScaleToWindow, PreserveAspectRatio} fails with `Unsupported` (distinct
from `NotFound`); a value past the largest defined mode fails with
`OperationFailed` (distinct from both). -/
theorem set_layer_scaling_mode_errors (scaling_mode : Nat) :
    (scaling_mode ≤ NintendoScaleMode.PreserveAspectRatio →
      scaling_mode ≠ NintendoScaleMode.ScaleToWindow →
      scaling_mode ≠ NintendoScaleMode.PreserveAspectRatio →
      SetLayerScalingMode scaling_mode = .ERR_UNSUPPORTED) ∧
    (NintendoScaleMode.PreserveAspectRatio < scaling_mode →
      SetLayerScalingMode scaling_mode = .ERR_OPERATION_FAILED) ∧
    VIResult.ERR_UNSUPPORTED ≠ VIResult.ERR_NOT_FOUND ∧
    VIResult.ERR_OPERATION_FAILED ≠ VIResult.ERR_UNSUPPORTED := by
  refine ⟨?_, ?_, by decide, by decide⟩
  · intro h1 h2 h3
    unfold SetLayerScalingMode
    rw [if_neg (by omega), if_pos ⟨h2, h3⟩]
  · intro h1
    unfold SetLayerScalingMode
    rw [if_pos h1]

/-- Witness for C9 (amended): mode 0 (None) is unsupported, mode 7 is
out of range. -/
theorem set_layer_scaling_mode_errors_witness :
    SetLayerScalingMode 0 = .ERR_UNSUPPORTED ∧
    SetLayerScalingMode 7 = .ERR_OPERATION_FAILED :=
  ⟨(set_layer_scaling_mode_errors 0).1 (by decide) (by decide) (by decide),
   (set_layer_scaling_mode_errors 7).2.1 (by decide)⟩

end ServiceVI
